import Mathlib

/-!
Verification of the portfolio application shell and its components.

Each definition is a shallow embedding of a JavaScript class from the
repository; stateful methods become explicit state-passing functions.
The DOM surface a component touches (document attributes, body styles,
CSS markers, localStorage, dispatched custom events) is represented by
explicit record fields; the browser clock is a field that the embedding
never advances on its own.
-/

namespace Portfolio

/-! ## ThemeManager (js/components/ThemeManager.js)

The constructor fixes `supportedThemes = ['dark', 'light']`,
`transitionDuration = 300` and storage key `portfolio-theme`.
localStorage is modelled as a functioning key-value cell for that single
key (the try/catch around getItem/setItem only swallows environment
exceptions, which are outside this model). -/

def supportedThemes : List String := ["dark", "light"]

def transitionDuration : Nat := 300

/-- The `.theme-toggle` button as mutated by `updateToggleButton`:
icon glyph, tooltip, aria-label and the two state marker classes. -/
structure ToggleButton where
  icon : String
  title : String
  ariaLabel : String
  darkClass : Bool
  lightClass : Bool
deriving Repr, DecidableEq

/-- Payload of the `themeChanged` custom event. -/
structure ThemeEvent where
  theme : String
  previousTheme : String
  timestamp : Nat
deriving Repr, DecidableEq

/-- State owned or touched by a ThemeManager instance: the
`currentTheme` field, the document root `data-theme` attribute, the
persisted `portfolio-theme` storage cell, the body
`theme-transitioning` class, the pending transition timeout, the
toggle button when present in the DOM, the log of dispatched
`themeChanged` events, and the clock read for timestamps. -/
structure ThemeState where
  currentTheme : String
  docThemeAttr : Option String
  storage : Option String
  bodyTransitioning : Bool
  transitionTimeout : Option Nat
  toggleButton : Option ToggleButton
  events : List ThemeEvent
  now : Nat
deriving Repr, DecidableEq

/-- `updateToggleButton(button)`: icon and labels are derived from
whether the current theme is dark; both marker classes are toggled. -/
def updateToggleButton (currentTheme : String) (b : ToggleButton) : ToggleButton :=
  let isDark := currentTheme == "dark"
  let label := if isDark then "Switch to light mode" else "Switch to dark mode"
  { b with
    icon := if isDark then "☀️" else "🌙",
    title := label,
    ariaLabel := label,
    darkClass := isDark,
    lightClass := !isDark }

/-- The primitive side effects a `setTheme` call performs, in program
order. `clearTimeout` models `clearTimeout(this.transitionTimeout)`
(clearing an absent timer is the identity, so the `if` guard in
`applyThemeWithTransition` is absorbed into the effect). -/
inductive ThemeEffect where
  | setCurrent (t : String)
  | clearTimeout
  | addTransitionClass
  | setDocAttr (t : String)
  | scheduleTransitionEnd
  | updateToggle
  | persist (t : String)
  | dispatchEvent (e : ThemeEvent)
deriving Repr, DecidableEq

/-- Semantics of each primitive effect on the theme state. -/
def applyEffect (st : ThemeState) : ThemeEffect → ThemeState
  | .setCurrent t => { st with currentTheme := t }
  | .clearTimeout => { st with transitionTimeout := none }
  | .addTransitionClass => { st with bodyTransitioning := true }
  | .setDocAttr t => { st with docThemeAttr := some t }
  | .scheduleTransitionEnd => { st with transitionTimeout := some (st.now + transitionDuration) }
  | .updateToggle => { st with toggleButton := st.toggleButton.map (updateToggleButton st.currentTheme) }
  | .persist t => { st with storage := some t }
  | .dispatchEvent e => { st with events := st.events ++ [e] }

/-- `setTheme(themeName)` compiled to its ordered list of primitive
effects. An unsupported name returns early with no effects. Otherwise,
in source order: record previous theme and update `currentTheme`;
`applyThemeWithTransition` (clear pending timeout, add the body
transition class, set the document attribute, schedule removal of the
class); update the toggle button; persist; dispatch `themeChanged`
carrying the new theme, the previous theme and `Date.now()`. -/
def setThemeEffects (st : ThemeState) (themeName : String) : List ThemeEffect :=
  if supportedThemes.contains themeName then
    [ .setCurrent themeName,
      .clearTimeout,
      .addTransitionClass,
      .setDocAttr themeName,
      .scheduleTransitionEnd,
      .updateToggle,
      .persist themeName,
      .dispatchEvent { theme := themeName, previousTheme := st.currentTheme, timestamp := st.now } ]
  else []

/-- `setTheme(themeName)`: the effects applied in order. -/
def setTheme (st : ThemeState) (themeName : String) : ThemeState :=
  (setThemeEffects st themeName).foldl applyEffect st

/-- `toggleTheme()`: `setTheme` with the opposite of the current theme. -/
def toggleTheme (st : ThemeState) : ThemeState :=
  setTheme st (if st.currentTheme == "dark" then "light" else "dark")

/-- The pieces of the browser environment `ThemeManager` consults:
`matchMediaLight = none` models a runtime without `window.matchMedia`,
`some b` models `matchMedia('(prefers-color-scheme: light)').matches = b`. -/
structure ThemeEnv where
  matchMediaLight : Option Bool
deriving Repr, DecidableEq

/-- `detectSystemTheme()`: light exactly when matchMedia exists and the
light-scheme query matches, dark otherwise. -/
def detectSystemTheme (env : ThemeEnv) : String :=
  if env.matchMediaLight = some true then "light" else "dark"

/-- `getSavedTheme()`: reads the storage cell (`none` models a null
return, i.e. the key was never set). -/
def getSavedTheme (st : ThemeState) : Option String := st.storage

/-- JavaScript truthiness of a string-or-null value as used in the
`if (!preferredTheme)` and `if (!savedTheme)` guards: null and the
empty string are falsy. -/
def isFalsy : Option String → Bool
  | none => true
  | some s => s.isEmpty

/-- `persistTheme(themeName)`: writes the storage cell. -/
def persistTheme (st : ThemeState) (themeName : String) : ThemeState :=
  { st with storage := some themeName }

/-- `initializeTheme()`: take the saved theme; if falsy, fall back to
the system theme; if the candidate is not supported, fall back to
`dark`; then set `currentTheme`, apply the document attribute without
transition, and persist the resolved theme. -/
def initializeTheme (env : ThemeEnv) (st : ThemeState) : ThemeState :=
  let savedTheme := getSavedTheme st
  let preferredTheme :=
    if isFalsy savedTheme then detectSystemTheme env else savedTheme.getD ""
  let preferredTheme :=
    if supportedThemes.contains preferredTheme then preferredTheme else "dark"
  let st := { st with currentTheme := preferredTheme }
  let st := { st with docThemeAttr := some preferredTheme }
  persistTheme st preferredTheme

/-- The `change` handler installed by `setupSystemThemeListener`: read
the saved theme at event time; only when it is falsy, set the theme to
the OS-reported value and refresh the toggle button. -/
def handleSystemThemeChange (st : ThemeState) (matchesLight : Bool) : ThemeState :=
  let savedTheme := getSavedTheme st
  if isFalsy savedTheme then
    let systemTheme := if matchesLight then "light" else "dark"
    let st := setTheme st systemTheme
    { st with toggleButton := st.toggleButton.map (updateToggleButton st.currentTheme) }
  else st

/-- The constructor followed by `init()`: default the current theme to
`dark`, run `initializeTheme`, then `setupThemeToggle` initializes the
button state when the button exists (the click and media-query
listeners it installs are modelled by the handler functions above). -/
def themeManagerInit (env : ThemeEnv) (st : ThemeState) : ThemeState :=
  let st := { st with currentTheme := "dark" }
  let st := initializeTheme env st
  { st with toggleButton := st.toggleButton.map (updateToggleButton st.currentTheme) }

/-! ## PortfolioApp data loading (app entry point, `loadData`)

The three dataset fetches run in one try/catch. A fetch result is
modelled as `Option`: `none` means the fetch (or its JSON parse)
threw. The item payloads are modelled by identifier lists; the claims
only distinguish fetched content from the empty fallbacks. -/

/-- Shape of `projects.json`. -/
structure ProjectsData where
  projects : List String
  categories : List String
deriving Repr, DecidableEq

/-- Shape of `articles.json`. -/
structure ArticlesData where
  articles : List String
  categories : List String
deriving Repr, DecidableEq

/-- Shape of `timeline.json`. -/
structure TimelineData where
  experiences : List String
  skills : List String
deriving Repr, DecidableEq

/-- `this.data` on the PortfolioApp instance; fields start as null. -/
structure PortfolioData where
  projects : Option ProjectsData
  articles : Option ArticlesData
  timeline : Option TimelineData
deriving Repr, DecidableEq

/-- Results of the three fetches the environment would deliver. -/
structure FetchEnv where
  projectsFetch : Option ProjectsData
  articlesFetch : Option ArticlesData
  timelineFetch : Option TimelineData
deriving Repr, DecidableEq

/-- The catch-block fallback: all three datasets set to the
empty-but-well-typed structures. -/
def fallbackData : PortfolioData :=
  { projects := some { projects := [], categories := [] },
    articles := some { articles := [], categories := [] },
    timeline := some { experiences := [], skills := [] } }

/-- `PortfolioApp.loadData()`: awaits the three fetches in sequence
inside a single try block; the first failure jumps to the catch block,
which overwrites all three `this.data` fields with the fallbacks —
including fields already assigned from earlier successful fetches. -/
def loadData (env : FetchEnv) (d : PortfolioData) : PortfolioData :=
  match env.projectsFetch with
  | none => fallbackData
  | some p =>
    let d := { d with projects := some p }
    match env.articlesFetch with
    | none => fallbackData
    | some a =>
      let d := { d with articles := some a }
      match env.timelineFetch with
      | none => fallbackData
      | some t => { d with timeline := some t }

/-! ## NavigationManager (js/components/NavigationManager.js)

Mobile-menu state, the DOM markers it projects to, the active-section
tracking over the collected `{id, element, navLink}` tuples, and the
body scroll-lock style shared with the SkillsTimeline modal. -/

/-- One collected section tuple: the anchor id and whether its nav
link currently carries the `active` class (the section DOM element
itself is not needed by the state machine). -/
structure NavSection where
  id : String
  linkActive : Bool
deriving Repr, DecidableEq

/-- NavigationManager state plus the DOM markers it writes: the
`mobile-menu-open` class on the links list, the hamburger `active`
class and its `aria-expanded` attribute, the tracked active section id
(initialized to `home`) and the collected sections. -/
structure NavState where
  mobileMenuOpen : Bool
  navLinksOpenClass : Bool
  hamburgerActive : Bool
  ariaExpanded : Bool
  activeSection : String
  sections : List NavSection
deriving Repr, DecidableEq

/-- The shared `document.body` style state: the `overflow` style
property used as a scroll lock by both the mobile menu and the
timeline modal, and whether a timeline modal element is attached. -/
structure BodyDom where
  overflow : String
  modalAttached : Bool
deriving Repr, DecidableEq

/-- `openMobileMenu()`: flip the flag, add both CSS markers, set
aria-expanded, and suppress body scroll. -/
def openMobileMenu (nav : NavState) (dom : BodyDom) : NavState × BodyDom :=
  ({ nav with
      mobileMenuOpen := true,
      navLinksOpenClass := true,
      hamburgerActive := true,
      ariaExpanded := true },
   { dom with overflow := "hidden" })

/-- `closeMobileMenu()`: reverse of open; the body overflow style is
reset to the empty string unconditionally. -/
def closeMobileMenu (nav : NavState) (dom : BodyDom) : NavState × BodyDom :=
  ({ nav with
      mobileMenuOpen := false,
      navLinksOpenClass := false,
      hamburgerActive := false,
      ariaExpanded := false },
   { dom with overflow := "" })

/-- `toggleMobileMenu()`. -/
def toggleMobileMenu (nav : NavState) (dom : BodyDom) : NavState × BodyDom :=
  if nav.mobileMenuOpen then closeMobileMenu nav dom else openMobileMenu nav dom

/-- The document click listener: close when the menu is open and the
click target is outside the nav container. -/
def handleDocumentClick (targetInsideNav : Bool) (nav : NavState) (dom : BodyDom) :
    NavState × BodyDom :=
  if nav.mobileMenuOpen && !targetInsideNav then closeMobileMenu nav dom else (nav, dom)

/-- The document keydown listener: close on Escape while open. -/
def handleKeydown (key : String) (nav : NavState) (dom : BodyDom) : NavState × BodyDom :=
  if key == "Escape" && nav.mobileMenuOpen then closeMobileMenu nav dom else (nav, dom)

/-- The nav-links click listener: any anchor click closes the menu
(the smooth scroll it also triggers does not touch this state). -/
def handleNavLinkClick (targetTag : String) (nav : NavState) (dom : BodyDom) :
    NavState × BodyDom :=
  if targetTag == "A" then closeMobileMenu nav dom else (nav, dom)

/-- The window resize listener: close when the width crosses above the
768px breakpoint while the menu is open. -/
def handleResize (innerWidth : Nat) (nav : NavState) (dom : BodyDom) : NavState × BodyDom :=
  if innerWidth > 768 && nav.mobileMenuOpen then closeMobileMenu nav dom else (nav, dom)

/-- `updateActiveSection(sectionId)`: early return when the id already
matches; otherwise record the id and rewrite every collected link
marker — set `active` on links whose section id matches, remove it
from all others. -/
def updateActiveSection (nav : NavState) (sectionId : String) : NavState :=
  if nav.activeSection == sectionId then nav
  else
    { nav with
      activeSection := sectionId,
      sections := nav.sections.map fun s => { s with linkActive := s.id == sectionId } }

/-- Number of nav links currently carrying the `active` marker. -/
def countActiveLinks (nav : NavState) : Nat :=
  (nav.sections.filter fun s => s.linkActive).length

/-! ## SkillsTimeline modal (js/components/ContactForm.js, SkillsTimeline class)

Only the state-machine part of `createTimelineModal`/`closeModal` is
embedded: the modal markup built from an experience record is
presentation, while the body append and the scroll lock are the
effects shared with NavigationManager. -/

/-- SkillsTimeline modal ownership: whether `this.modal` is set. -/
structure TimelineState where
  modal : Bool
deriving Repr, DecidableEq

/-- `closeModal()`: when a modal is held, remove it from the body and
release the scroll lock; otherwise do nothing. -/
def closeModal (tl : TimelineState) (dom : BodyDom) : TimelineState × BodyDom :=
  if tl.modal then
    ({ modal := false }, { dom with modalAttached := false, overflow := "" })
  else (tl, dom)

/-- `createTimelineModal(experience)`: first `closeModal()`, then
append the new modal to the body, record it on `this.modal`, and
suppress body scroll. -/
def createTimelineModal (tl : TimelineState) (dom : BodyDom) : TimelineState × BodyDom :=
  let p := closeModal tl dom
  ({ modal := true }, { p.2 with modalAttached := true, overflow := "hidden" })

/-! ## LazyImageLoader (js/components/LazyImageLoader.js)

Images are identified by a numeric id into a total store of image
properties; `this.images` (a Set of references) becomes a list of ids
with membership checked before insertion, and each call to
`observer.observe(img)` is logged so engagements can be counted. -/

/-- The attributes of one img element the loader reads or writes:
the `src` property (the empty string models an unset src), the
deferred-source attributes, declared dimensions, and the three marker
classes from the default options. -/
structure ImgProps where
  src : String
  dataSrc : Option String
  dataSrcset : Option String
  widthAttr : Option Nat
  heightAttr : Option Nat
  placeholderClass : Bool
  loadedClass : Bool
  errorClass : Bool
deriving Repr, DecidableEq

/-- `generatePlaceholder(img)`: an inline SVG data URI sized from the
declared width/height attributes with defaults 300 by 200 (the base64
payload is abstracted to its parameters). -/
def generatePlaceholder (p : ImgProps) : String :=
  let width := p.widthAttr.getD 300
  let height := p.heightAttr.getD 200
  "data:image/svg+xml;base64,loading-" ++ toString width ++ "x" ++ toString height

/-- LazyImageLoader state: whether the IntersectionObserver could be
constructed, the tracked set, the log of `observer.observe` calls, the
log of immediate fallback `loadImage` starts, and the image store. -/
structure LazyState where
  observerPresent : Bool
  tracked : List Nat
  observeCalls : List Nat
  fallbackLoads : List Nat
  dom : Nat → ImgProps

/-- `observeImage(img)`: return early when the image is already in the
tracked set; otherwise add it, add the placeholder class, install the
generated placeholder when the image has no src yet, and either engage
the observer or (no observer) start loading immediately. -/
def observeImage (st : LazyState) (i : Nat) : LazyState :=
  if st.tracked.contains i then st
  else
    let st := { st with tracked := i :: st.tracked }
    let p := st.dom i
    let p := { p with placeholderClass := true }
    let p := if p.src == "" then { p with src := generatePlaceholder p } else p
    let st := { st with dom := fun j => if j = i then p else st.dom j }
    if st.observerPresent then { st with observeCalls := st.observeCalls ++ [i] }
    else { st with fallbackLoads := st.fallbackLoads ++ [i] }

/-- `addImage(img)`. -/
def addImage (st : LazyState) (i : Nat) : LazyState :=
  observeImage st i

/-- A theme state as found on a fresh page: default dark theme, no
document attribute yet, empty storage, no pending transition, a
toggle button present in the markup, no events dispatched. -/
def sampleThemeState : ThemeState :=
  { currentTheme := "dark",
    docThemeAttr := none,
    storage := none,
    bodyTransitioning := false,
    transitionTimeout := none,
    toggleButton := some { icon := "", title := "", ariaLabel := "", darkClass := false, lightClass := false },
    events := [],
    now := 0 }

/-- The ordering property of one `setTheme` call: the effect trace
ends with the single dispatch of the `themeChanged` event carrying the
new theme, the previous theme and the timestamp, and everything before
it already contains the `currentTheme` update and the document
attribute write, so the state any listener observes has the new theme
fully applied. -/
def mutationPrecedesDispatch (st : ThemeState) (t : String) : Prop :=
  ∃ pre,
    setThemeEffects st t =
      pre ++ [ThemeEffect.dispatchEvent { theme := t, previousTheme := st.currentTheme, timestamp := st.now }] ∧
    ThemeEffect.setCurrent t ∈ pre ∧
    ThemeEffect.setDocAttr t ∈ pre ∧
    (∀ e, ThemeEffect.dispatchEvent e ∉ pre) ∧
    (pre.foldl applyEffect st).currentTheme = t ∧
    (pre.foldl applyEffect st).docThemeAttr = some t

/-- Net effect of `setTheme` on a supported theme name, obtained by
folding the effect trace. -/
theorem setTheme_valid_eq (st : ThemeState) (t : String)
    (h : t ∈ supportedThemes) :
    setTheme st t =
      { currentTheme := t,
        docThemeAttr := some t,
        storage := some t,
        bodyTransitioning := true,
        transitionTimeout := some (st.now + transitionDuration),
        toggleButton := st.toggleButton.map (updateToggleButton t),
        events := st.events ++ [{ theme := t, previousTheme := st.currentTheme, timestamp := st.now }],
        now := st.now } := by
  simp [setTheme, setThemeEffects, h, applyEffect]

/-- Claim C1: for every string s outside the supported set
(dark, light), `setTheme(s)` is a no-op: the whole theme state —
current theme, document attribute, storage, transition bookkeeping,
toggle button and event log — is unchanged and no event is
dispatched. -/
theorem setTheme_invalid_noop (st : ThemeState) (s : String)
    (h : s ∉ supportedThemes) : setTheme st s = st := by
  simp [setTheme, setThemeEffects, h]

/-- Witness for C1 at the concrete invalid name `purple`. -/
theorem setTheme_invalid_noop_witness :
    "purple" ∉ supportedThemes ∧ setTheme sampleThemeState "purple" = sampleThemeState :=
  ⟨by decide, setTheme_invalid_noop sampleThemeState "purple" (by decide)⟩

/-- The current theme read back after one toggle. -/
theorem toggleTheme_currentTheme (st : ThemeState) :
    (toggleTheme st).currentTheme =
      if st.currentTheme == "dark" then "light" else "dark" := by
  cases hb : st.currentTheme == "dark"
  · simp only [toggleTheme, hb, if_false, Bool.false_eq_true]
    rw [setTheme_valid_eq st "dark" (by decide)]
  · simp only [toggleTheme, hb, if_true]
    rw [setTheme_valid_eq st "light" (by decide)]

/-- Claim C6: for a current theme in the supported set, two
consecutive `toggleTheme()` calls restore the current theme. -/
theorem toggleTheme_involution (st : ThemeState)
    (h : st.currentTheme ∈ supportedThemes) :
    (toggleTheme (toggleTheme st)).currentTheme = st.currentTheme := by
  have h2 : st.currentTheme = "dark" ∨ st.currentTheme = "light" := by
    simpa [supportedThemes] using h
  rw [toggleTheme_currentTheme, toggleTheme_currentTheme]
  rcases h2 with h2 | h2 <;> rw [h2] <;> decide

/-- Witness for C6 at the fresh dark-theme state. -/
theorem toggleTheme_involution_witness :
    sampleThemeState.currentTheme ∈ supportedThemes ∧
    (toggleTheme (toggleTheme sampleThemeState)).currentTheme = sampleThemeState.currentTheme :=
  ⟨by decide, toggleTheme_involution sampleThemeState (by decide)⟩

/-- Claim C8: for every supported theme name, within one `setTheme`
call the state mutation precedes the notification — the effect trace
dispatches the `themeChanged` event carrying theme, previous theme and
timestamp exactly once, as its last step, strictly after the
current-theme field update and the document attribute write, so the
fold of the preceding effects already shows the new theme applied. -/
theorem setTheme_mutation_precedes_dispatch (st : ThemeState) (t : String)
    (h : t ∈ supportedThemes) : mutationPrecedesDispatch st t := by
  refine ⟨[.setCurrent t, .clearTimeout, .addTransitionClass, .setDocAttr t,
           .scheduleTransitionEnd, .updateToggle, .persist t], ?_, ?_, ?_, ?_, ?_, ?_⟩
  · simp [setThemeEffects, h]
  · simp
  · simp
  · intro e; simp
  · simp [applyEffect]
  · simp [applyEffect]

/-- Witness for C8 at the fresh state and the concrete name light. -/
theorem setTheme_mutation_precedes_dispatch_witness :
    "light" ∈ supportedThemes ∧ mutationPrecedesDispatch sampleThemeState "light" :=
  ⟨by decide, setTheme_mutation_precedes_dispatch sampleThemeState "light" (by decide)⟩

/-- Environment whose OS reports a light preference. -/
def envLight : ThemeEnv := { matchMediaLight := some true }

/-- Environment whose OS reports a dark preference. -/
def envDark : ThemeEnv := { matchMediaLight := some false }

/-- A page state whose persisted cell holds the invalid value
`purple` (for example written by an earlier version or by hand). -/
def stSavedPurple : ThemeState := { sampleThemeState with storage := some "purple" }

/-- Counterexample to claim C3: with the saved value `purple` (not a
valid theme) and an OS that reports the valid preference `light`,
`initializeTheme` resolves to `dark`, not to the OS-reported
preference — a truthy saved value short-circuits the OS lookup and
the validity fallback then picks the hard-coded default. -/
theorem initializeTheme_counterexample :
    stSavedPurple.storage = some "purple" ∧
    "purple" ∉ supportedThemes ∧
    detectSystemTheme envLight = "light" ∧
    (initializeTheme envLight stSavedPurple).currentTheme ≠ detectSystemTheme envLight ∧
    (initializeTheme envLight stSavedPurple).currentTheme = "dark" := by
  decide

/-- Claim C3 (amended): initialization takes the saved value when it
is present and nonempty, otherwise the OS-reported preference, and
validates the chosen candidate against the supported set with `dark`
as the fallback. Hence a valid nonempty saved value wins; with no
saved value (or an empty one) the OS-reported preference wins; and a
nonempty invalid saved value yields `dark` regardless of the OS
preference. -/
theorem initializeTheme_precedence (env : ThemeEnv) (st : ThemeState) (s : String) :
    (st.storage = some s → s ≠ "" → s ∈ supportedThemes →
      (initializeTheme env st).currentTheme = s) ∧
    (isFalsy st.storage = true →
      (initializeTheme env st).currentTheme = detectSystemTheme env) ∧
    (st.storage = some s → s ≠ "" → s ∉ supportedThemes →
      (initializeTheme env st).currentTheme = "dark") := by
  refine ⟨?_, ?_, ?_⟩
  · intro hs hne hmem
    have hf2 : isFalsy (some s) = false := by
      simp only [isFalsy]
      cases hemp : s.isEmpty
      · rfl
      · exact absurd ((String.isEmpty_iff s).mp hemp) hne
    simp [initializeTheme, getSavedTheme, persistTheme, hs, hf2, hmem]
  · intro hf
    have hmem : detectSystemTheme env ∈ supportedThemes := by
      by_cases hm : env.matchMediaLight = some true <;>
        simp [detectSystemTheme, supportedThemes, hm]
    simp [initializeTheme, getSavedTheme, persistTheme, hf, hmem]
  · intro hs hne hmem
    have hf2 : isFalsy (some s) = false := by
      simp only [isFalsy]
      cases hemp : s.isEmpty
      · rfl
      · exact absurd ((String.isEmpty_iff s).mp hemp) hne
    simp [initializeTheme, getSavedTheme, persistTheme, hs, hf2, hmem]

/-- Witness for the amended C3 at a valid saved value: saved `light`
wins over an OS that reports dark. -/
theorem initializeTheme_precedence_witness :
    ({ sampleThemeState with storage := some "light" } : ThemeState).storage = some "light" ∧
    "light" ≠ "" ∧ "light" ∈ supportedThemes ∧
    (initializeTheme envDark { sampleThemeState with storage := some "light" }).currentTheme = "light" :=
  ⟨by decide, by decide, by decide,
    (initializeTheme_precedence envDark { sampleThemeState with storage := some "light" } "light").1
      (by decide) (by decide) (by decide)⟩

/-- Counterexample to claim C5: a fresh page (nothing persisted, OS
dark) is constructed — the user never chooses a theme, so no explicit
user preference is ever persisted — yet a later OS change event to
light leaves the theme dark and changes nothing, because
initialization already persisted the startup theme and the handler
only checks cell emptiness. The claim demands the theme follow the
OS-reported value here. -/
theorem systemThemeListener_counterexample :
    sampleThemeState.storage = none ∧
    handleSystemThemeChange (themeManagerInit envDark sampleThemeState) true =
      themeManagerInit envDark sampleThemeState ∧
    (handleSystemThemeChange (themeManagerInit envDark sampleThemeState) true).currentTheme ≠ "light" := by
  decide

/-- Claim C5 (amended): the OS-preference change handler auto-switches
exactly when the storage cell is empty (absent or empty string) at
event time — regardless of whether the persisted value came from an
explicit user choice or from initialization. When the cell is empty
the theme is set to the OS-reported value; otherwise the state is
left entirely unchanged. -/
theorem handleSystemThemeChange_cases (st : ThemeState) (matchesLight : Bool) :
    (isFalsy st.storage = false → handleSystemThemeChange st matchesLight = st) ∧
    (isFalsy st.storage = true →
      (handleSystemThemeChange st matchesLight).currentTheme =
        (if matchesLight then "light" else "dark")) := by
  constructor
  · intro hf
    simp [handleSystemThemeChange, getSavedTheme, hf]
  · intro hf
    cases matchesLight
    · simp only [handleSystemThemeChange, getSavedTheme, hf, if_true, if_false,
        Bool.false_eq_true]
      rw [setTheme_valid_eq st "dark" (by decide)]
    · simp only [handleSystemThemeChange, getSavedTheme, hf, if_true]
      rw [setTheme_valid_eq st "light" (by decide)]

/-- Witness for the amended C5: with an empty storage cell the handler
switches to the OS-reported light theme. -/
theorem handleSystemThemeChange_cases_witness :
    isFalsy sampleThemeState.storage = true ∧
    (handleSystemThemeChange sampleThemeState true).currentTheme =
      (if true then "light" else "dark") :=
  ⟨by decide, (handleSystemThemeChange_cases sampleThemeState true).2 (by decide)⟩

/-- Claim C9: construction always persists the resolved startup
theme — after `themeManagerInit` the storage cell holds exactly the
current theme, which is a supported theme, even when nothing was
persisted beforehand. -/
theorem themeManagerInit_persists (env : ThemeEnv) (st : ThemeState) :
    (themeManagerInit env st).storage = some ((themeManagerInit env st).currentTheme) ∧
    (themeManagerInit env st).currentTheme ∈ supportedThemes := by
  constructor
  · rfl
  · have e : (themeManagerInit env st).currentTheme =
        (if supportedThemes.contains
            (if isFalsy st.storage then detectSystemTheme env else st.storage.getD "")
         then (if isFalsy st.storage then detectSystemTheme env else st.storage.getD "")
         else "dark") := rfl
    rw [e]
    by_cases hc : supportedThemes.contains
        (if isFalsy st.storage then detectSystemTheme env else st.storage.getD "") = true
    · rw [if_pos hc]
      exact List.mem_of_elem_eq_true hc
    · rw [if_neg hc]
      decide

/-- Fetch outcomes where projects and timeline succeed with real data
but the articles fetch throws. -/
def envArticlesFail : FetchEnv :=
  { projectsFetch := some { projects := ["p1"], categories := ["web"] },
    articlesFetch := none,
    timelineFetch := some { experiences := ["e1"], skills := ["js"] } }

/-- `this.data` as the constructor leaves it: all three fields null. -/
def initialData : PortfolioData :=
  { projects := none, articles := none, timeline := none }

/-- Counterexample to claim C2: when the projects fetch succeeds and
the articles fetch fails, `loadData` does not leave the fetched
projects in place — the single catch block overwrites all three
datasets with the empty fallbacks, so `this.data.projects` holds the
empty structure instead of the fetched one. -/
theorem loadData_counterexample :
    envArticlesFail.projectsFetch = some { projects := ["p1"], categories := ["web"] } ∧
    envArticlesFail.articlesFetch = none ∧
    (loadData envArticlesFail initialData).projects = some { projects := [], categories := [] } ∧
    (loadData envArticlesFail initialData).projects ≠ envArticlesFail.projectsFetch := by
  decide

/-- Claim C2 (amended): dataset fallback is all-or-nothing. If any of
the three fetches fails, all three datasets are set to the
empty-but-well-typed fallback structures, discarding datasets that
were fetched successfully; only when all three fetches succeed do the
datasets hold the fetched data. -/
theorem loadData_all_or_nothing (env : FetchEnv) (d : PortfolioData) :
    ((env.projectsFetch = none ∨ env.articlesFetch = none ∨ env.timelineFetch = none) →
      loadData env d = fallbackData) ∧
    (∀ p a t, env.projectsFetch = some p → env.articlesFetch = some a →
      env.timelineFetch = some t →
      loadData env d = { projects := some p, articles := some a, timeline := some t }) := by
  constructor
  · intro h
    rcases hp : env.projectsFetch with _ | p
    · simp [loadData, hp]
    · rcases ha : env.articlesFetch with _ | a
      · simp [loadData, hp, ha]
      · rcases ht : env.timelineFetch with _ | t
        · simp [loadData, hp, ha, ht]
        · rcases h with h | h | h <;> simp_all
  · intro p a t hp ha ht
    simp [loadData, hp, ha, ht]

/-- Witness for the amended C2 at the concrete fetch outcome where
only articles fails: everything falls back. -/
theorem loadData_all_or_nothing_witness :
    (envArticlesFail.projectsFetch = none ∨ envArticlesFail.articlesFetch = none ∨
      envArticlesFail.timelineFetch = none) ∧
    loadData envArticlesFail initialData = fallbackData :=
  ⟨Or.inr (Or.inl rfl),
    (loadData_all_or_nothing envArticlesFail initialData).1 (Or.inr (Or.inl rfl))⟩

/-- The navigation state right after construction against a page
whose nav has anchors for `home` and `about` and no link carrying the
`active` class yet: the tracked id starts as `home`. -/
def sampleNavState : NavState :=
  { mobileMenuOpen := false, navLinksOpenClass := false, hamburgerActive := false,
    ariaExpanded := false, activeSection := "home",
    sections := [{ id := "home", linkActive := false }, { id := "about", linkActive := false }] }

/-- Counterexample to claim C4: from the freshly constructed state a
call for the known section `about` marks exactly one link, but a
following call with an id naming no collected section clears the
marker from every link — zero links carry the marker after that call,
not exactly one. -/
theorem updateActiveSection_counterexample :
    countActiveLinks (updateActiveSection sampleNavState "about") = 1 ∧
    countActiveLinks
      (updateActiveSection (updateActiveSection sampleNavState "about") "missing") = 0 := by
  decide

theorem countActive_map (secs : List NavSection) (sectionId : String) :
    ((secs.map fun s => { s with linkActive := s.id == sectionId }).filter
        fun s => s.linkActive).length =
      (secs.filter fun s => s.id == sectionId).length := by
  induction secs with
  | nil => rfl
  | cons head tail ih =>
    cases hid : head.id == sectionId <;> simp [List.filter_cons, hid, ih]

/-- Claim C4 (amended): a call whose id equals the tracked active
section is a no-op; a call with a different id leaves exactly as many
links marked active as there are collected sections carrying that id —
exactly one when the id names one collected section, zero when the id
names none. -/
theorem updateActiveSection_cases (nav : NavState) (sectionId : String) :
    (sectionId = nav.activeSection → updateActiveSection nav sectionId = nav) ∧
    (sectionId ≠ nav.activeSection →
      countActiveLinks (updateActiveSection nav sectionId) =
        (nav.sections.filter fun s => s.id == sectionId).length) := by
  constructor
  · intro h
    subst h
    simp [updateActiveSection]
  · intro h
    have hbeq : (nav.activeSection == sectionId) = false :=
      beq_eq_false_iff_ne.mpr (Ne.symm h)
    simp only [updateActiveSection, hbeq, Bool.false_eq_true, if_false, countActiveLinks]
    exact countActive_map nav.sections sectionId

/-- Witness for the amended C4: from the fresh state, a call for
`about` (collected once) marks exactly one link. -/
theorem updateActiveSection_cases_witness :
    "about" ≠ sampleNavState.activeSection ∧
    countActiveLinks (updateActiveSection sampleNavState "about") =
      (sampleNavState.sections.filter fun s => s.id == "about").length :=
  ⟨by decide, (updateActiveSection_cases sampleNavState "about").2 (by decide)⟩

theorem observeImage_of_tracked (st : LazyState) (i : Nat)
    (h : st.tracked.contains i = true) : observeImage st i = st := by
  simp only [observeImage]
  rw [if_pos h]

theorem tracked_addImage (st : LazyState) (i : Nat) :
    (addImage st i).tracked.contains i = true := by
  by_cases hc : st.tracked.contains i = true
  · rw [addImage, observeImage_of_tracked st i hc]
    exact hc
  · simp only [addImage, observeImage]
    rw [if_neg hc]
    cases hop : st.observerPresent <;> simp [hop]

/-- Claim C7: `addImage` is idempotent — adding an image a second time
is a no-op on the whole loader state (tracked set, observation log,
placeholder work, image store), and for a fresh image with the
observer available the observation primitive is engaged exactly once
across the two calls. -/
theorem addImage_idempotent (st : LazyState) (i : Nat) :
    addImage (addImage st i) i = addImage st i ∧
    (st.observerPresent = true → st.tracked.contains i = false →
      st.observeCalls.count i = 0 →
      (addImage (addImage st i) i).observeCalls.count i = 1) := by
  have hnoop : addImage (addImage st i) i = addImage st i :=
    observeImage_of_tracked (addImage st i) i (tracked_addImage st i)
  refine ⟨hnoop, ?_⟩
  intro hop hc hcount
  rw [hnoop]
  have hcalls : (addImage st i).observeCalls = st.observeCalls ++ [i] := by
    simp only [addImage, observeImage]
    rw [if_neg (by rw [hc]; decide)]
    simp [hop]
  rw [hcalls]
  simp [List.count_append, hcount]

/-- One untracked image carrying a deferred source and no src yet. -/
def sampleImgProps : ImgProps :=
  { src := "", dataSrc := some "a.jpg", dataSrcset := none, widthAttr := none,
    heightAttr := none, placeholderClass := false, loadedClass := false, errorClass := false }

/-- A fresh loader with a working observer and nothing tracked. -/
def sampleLazyState : LazyState :=
  { observerPresent := true, tracked := [], observeCalls := [], fallbackLoads := [],
    dom := fun _ => sampleImgProps }

/-- Witness for C7 at a fresh loader and image 0: after two adds the
observer was engaged exactly once. -/
theorem addImage_idempotent_witness :
    sampleLazyState.observerPresent = true ∧
    sampleLazyState.tracked.contains 0 = false ∧
    sampleLazyState.observeCalls.count 0 = 0 ∧
    (addImage (addImage sampleLazyState 0) 0).observeCalls.count 0 = 1 :=
  ⟨rfl, rfl, rfl, (addImage_idempotent sampleLazyState 0).2 rfl rfl rfl⟩

/-- Claim C10: `closeMobileMenu` resets the body overflow style to the
empty string unconditionally — for every body state, including one
whose scroll lock was established by an attached timeline modal — and
when the menu is open while a timeline modal has just locked scrolling,
the escape-key close trigger releases that lock even though the modal
stays open and attached. -/
theorem closeMobileMenu_releases_scroll_lock (nav : NavState) (dom : BodyDom)
    (tl : TimelineState) :
    (closeMobileMenu nav dom).2.overflow = "" ∧
    (nav.mobileMenuOpen = true →
      (createTimelineModal tl dom).2.overflow = "hidden" ∧
      (createTimelineModal tl dom).1.modal = true ∧
      (handleKeydown "Escape" nav (createTimelineModal tl dom).2).2.overflow = "" ∧
      (handleKeydown "Escape" nav (createTimelineModal tl dom).2).2.modalAttached =
        (createTimelineModal tl dom).2.modalAttached) := by
  refine ⟨rfl, ?_⟩
  intro hopen
  refine ⟨rfl, rfl, ?_, ?_⟩
  · simp [handleKeydown, hopen, closeMobileMenu]
  · simp [handleKeydown, hopen, closeMobileMenu]

/-- A state with the mobile menu open. -/
def sampleOpenNav : NavState :=
  { mobileMenuOpen := true, navLinksOpenClass := true, hamburgerActive := true,
    ariaExpanded := true, activeSection := "home", sections := [] }

/-- Witness for C10: with the menu open and a fresh body, opening the
timeline modal and then pressing escape leaves the body scroll
unlocked while the modal is still attached. -/
theorem closeMobileMenu_releases_scroll_lock_witness :
    sampleOpenNav.mobileMenuOpen = true ∧
    (closeMobileMenu sampleOpenNav { overflow := "hidden", modalAttached := true }).2.overflow = "" ∧
    (handleKeydown "Escape" sampleOpenNav
      (createTimelineModal { modal := false } { overflow := "", modalAttached := false }).2).2.overflow = "" :=
  ⟨rfl,
    (closeMobileMenu_releases_scroll_lock sampleOpenNav
      { overflow := "hidden", modalAttached := true } { modal := false }).1,
    ((closeMobileMenu_releases_scroll_lock sampleOpenNav
      { overflow := "", modalAttached := false } { modal := false }).2 rfl).2.2.1⟩

end Portfolio
